import Mathlib

/-!
Verification of `guild/plugins/skopt.py` (guildai skopt plugin).

The module has three parts, embedded below:
* the flag-to-search-space encoder (`encode_flag_for_optimizer`,
  `_encode_function`),
* the static operation catalog and its default filling
  (`_skopt_opdefs`, `_apply_opdef_defaults`),
* the operation alias resolver (`SkoptPlugin.resolve_model_op`).
-/

namespace Skopt

/-- A scalar flag value as it occurs in the plugin: a boolean, an
integer, a decimal float (represented exactly as `mant / 10 ^ digits`),
or a string.  A Python `None` is represented by `Option.none` at use
sites, never by a constructor of this type. -/
inductive FlagVal where
  | bool (b : Bool)
  | int (n : Int)
  | float (mant : Int) (digits : Nat)
  | str (s : String)
  deriving DecidableEq, Repr

/-- Left-pad a string with `'0'` up to length `n`. -/
def padZeros (s : String) (n : Nat) : String :=
  String.mk (List.replicate (n - s.length) '0') ++ s

/-- Decimal rendering of the exact float `mant / 10 ^ digits`,
e.g. `floatRepr 3 1 = "0.3"`, `floatRepr 196 2 = "1.96"`. -/
def floatRepr (mant : Int) (digits : Nat) : String :=
  let p := 10 ^ digits
  let a := mant.natAbs
  let intPart := a / p
  let fracPart := a % p
  (if mant < 0 then "-" else "")
    ++ toString intPart ++ "."
    ++ (if digits = 0 then "0" else padZeros (toString fracPart) digits)

/-- Modelled from the spec: `guild.flag_util.encode_flag_val` is not
under src/ (the spec lists "flag-value textual encoding helpers" as
out-of-scope collaborators, "a given utility that converts a typed
value into its canonical string form", with canonical numeric forms
such as `0.0`, `1.0`, `0.3`).  We model it on scalar values: numbers
render in decimal notation, strings as themselves, booleans in their
YAML form. -/
def encode_flag_val : FlagVal → String
  | .bool b => if b then "yes" else "no"
  | .int n => toString n
  | .float mant digits => floatRepr mant digits
  | .str s => s

/-- One entry of a flag definition's `choices` list: a raw value plus
an optional description (the description is only documentation). -/
structure FlagChoice where
  value : FlagVal
  description : Option String := none
  deriving DecidableEq, Repr

/-- The part of a guild flag definition read by the skopt encoder:
`choices` (empty list models a Python `None` or `[]`, both falsy),
numeric bounds `min` and `max` (`Option.none` models Python `None`),
the optional `distribution` name, and the declared `default` (carried
for fidelity; the encoder itself never reads it). -/
structure FlagDef where
  choices : List FlagChoice := []
  min : Option FlagVal := none
  max : Option FlagVal := none
  distribution : Option String := none
  default : Option FlagVal := none
  deriving DecidableEq, Repr

/-- The three shapes `encode_flag_for_optimizer` can return: a list of
choice values, a distribution-descriptor string, or the input value
passed through unchanged. -/
inductive EncodedFlag where
  | choiceList (vs : List FlagVal)
  | searchSpace (s : String)
  | passThrough (v : Option FlagVal)
  deriving DecidableEq, Repr

/-- Python `':'.join args`. -/
def joinColon : List String → String
  | [] => ""
  | [a] => a
  | a :: rest => a ++ ":" ++ joinColon rest

/-- Python `flagdef.distribution or "uniform"` on an optional string:
by Python truthiness both an absent distribution and a falsy
(empty-string) one yield `"uniform"`. -/
def funcNameOf (distribution : Option String) : String :=
  match distribution with
  | some d => if d = "" then "uniform" else d
  | none => "uniform"

/-- `_encode_function(flagdef, val)` from skopt.py.  The leading
`assert flagdef.min is not None and flagdef.max is not None` is
modelled by returning `none` (assertion failure) when either bound is
absent. -/
def _encode_function (flagdef : FlagDef) (val : Option FlagVal) : Option String :=
  match flagdef.min, flagdef.max with
  | some mn, some mx =>
    let func_name := funcNameOf flagdef.distribution
    let low := encode_flag_val mn
    let high := encode_flag_val mx
    let args :=
      match val with
      | some v => [low, high, encode_flag_val v]
      | none => [low, high]
    some (func_name ++ "[" ++ joinColon args ++ "]")
  | _, _ => none

/-- `encode_flag_for_optimizer(val, flagdef)` from skopt.py.  A `none`
result would mean an assertion failure escaping the function; the
branch guard makes the inner assertion unreachable, so the function in
fact always returns `some`. -/
def encode_flag_for_optimizer (val : Option FlagVal) (flagdef : FlagDef) :
    Option EncodedFlag :=
  if flagdef.choices ≠ [] then
    some (.choiceList (flagdef.choices.map FlagChoice.value))
  else if flagdef.min.isSome ∧ flagdef.max.isSome then
    (_encode_function flagdef val).map .searchSpace
  else
    some (.passThrough val)

/-!
## Operation catalog

`_skopt_opdefs` parses a static YAML document into a mapping from
operation name to an operation definition (itself a mapping from field
name to value) and then fills missing behavioral defaults with
`_apply_opdef_defaults`.  The parsed YAML value is embedded directly
below (`skopt_opdefs_raw`), with multi-line plain scalars folded per
YAML (line breaks become spaces, blank lines become newlines).
-/

/-- A flag definition as it appears inside an operation's `flags`
mapping in the YAML document: a description, a default value, an
optional declared type and an optional choices list. -/
structure CatFlagDef where
  description : String
  default : FlagVal
  type : Option String := none
  choices : List FlagChoice := []
  deriving DecidableEq, Repr

/-- A top-level field value of an operation definition: a string, a
boolean, an integer, a string-to-string mapping (the `env` default) or
a flags mapping. -/
inductive OpField where
  | str (s : String)
  | bool (b : Bool)
  | int (n : Int)
  | envMap (m : List (String × String))
  | flags (fs : List (String × CatFlagDef))
  deriving DecidableEq, Repr

/-- An operation definition: an insertion-ordered mapping from field
name to value (a Python dict). -/
abbrev Opdef : Type := List (String × OpField)

/-- The catalog: an insertion-ordered mapping from operation name to
operation definition. -/
abbrev Opdefs : Type := List (String × Opdef)

/-- Python dict lookup on an insertion-ordered association list. -/
def alookup {α : Type} (k : String) : List (String × α) → Option α
  | [] => none
  | (k2, v) :: rest => if k2 = k then some v else alookup k rest

/-- The `defaults` table of `_apply_opdef_defaults`, in its insertion
order. -/
def opdefDefaults : Opdef :=
  [ ("flag-encoder", .str "guild.plugins.skopt:encode_flag_for_optimizer"),
    ("default-max-trials", .int 20),
    ("delete-on-success", .bool false),
    ("can-stage-trials", .bool false),
    ("env", .envMap [("NO_OP_INTERRUPTED_MSG", "1")]) ]

/-- `opdef.update(\x7bname: defaults[name] for name in defaults if name
not in opdef\x7d)`: keys of `defaults` absent from `opdef` are appended
in the defaults table's order; present keys are untouched. -/
def dictUpdateMissing (opdef defaults : Opdef) : Opdef :=
  opdef ++ defaults.filter (fun kv => (alookup kv.1 opdef).isNone)

/-- `_apply_opdef_defaults(opdefs)` from skopt.py (the Python mutates
each opdef in place; we return the updated mapping). -/
def _apply_opdef_defaults (opdefs : Opdefs) : Opdefs :=
  opdefs.map (fun p => (p.1, dictUpdateMissing p.2 opdefDefaults))

/-- The `prev-trials` flag shared verbatim by the gp, forest and gbrt
operations in the YAML document. -/
def prevTrialsFlag : CatFlagDef :=
  { description := "Method used to select previous trials for suggestions",
    default := .str "batch",
    choices :=
      [ { value := .str "batch",
          description := some "Use trials generated by the batch run" },
        { value := .str "sourcecode",
          description := some "Use trials with the same source code" },
        { value := .str "operation",
          description := some "Use trials with the same operation name" } ] }

/-- The `random-starts` flag shared verbatim by gp, forest and gbrt. -/
def randomStartsFlag : CatFlagDef :=
  { description := "Number of trials using random values before optimizing",
    default := .int 3,
    type := some "int" }

/-- The `kappa` flag shared (after YAML folding) by gp, forest and
gbrt. -/
def kappaFlag : CatFlagDef :=
  { description :=
      "Degree to which variance in the predicted values is taken into account",
    default := .float 196 2,
    type := some "float" }

/-- The `xi` flag shared verbatim by gp, forest and gbrt. -/
def xiFlag : CatFlagDef :=
  { description := "Improvement to seek over the previous best values",
    default := .float 5 2,
    type := some "float" }

/-- The YAML document of `_skopt_opdefs` as parsed by
`yaml.safe_load`: operations `random`, `gp`, `forest`, `gbrt` with
their declared fields, before defaults are applied. -/
def skopt_opdefs_raw : Opdefs :=
  [ ("random",
     [ ("description",
        .str "Batch processor supporting random flag value generation."),
       ("exec", .str "${python_exe} -um guild.plugins.random_main"),
       ("delete-on-success", .bool true),
       ("can-stage-trials", .bool true) ]),
    ("gp",
     [ ("description",
        .str ("Bayesian optimizer using Gaussian processes.\n"
          ++ "Refer to https://scikit-optimize.github.io/#skopt.gp_minimize "
          ++ "for details on this algorithm and its flags.")),
       ("exec", .str "${python_exe} -um guild.plugins.skopt_gp_main"),
       ("flags",
        .flags
          [ ("random-starts", randomStartsFlag),
            ("acq-func",
             { description := "Function to minimize over the gaussian prior",
               default := .str "gp_hedge",
               choices :=
                 [ { value := .str "LCB",
                     description := some "Lower confidence bound" },
                   { value := .str "EI",
                     description := some "Negative expected improvement" },
                   { value := .str "PI",
                     description := some "Negative probability of improvement" },
                   { value := .str "gp_hedge",
                     description :=
                       some "Probabilistically use LCB, EI, or PI at every iteration" },
                   { value := .str "EIps",
                     description := some "Negative expected improvement per second" },
                   { value := .str "PIps",
                     description :=
                       some "Negative probability of improvement per second" } ] }),
            ("kappa", kappaFlag),
            ("xi", xiFlag),
            ("noise",
             { description :=
                 "Level of noise associated with the objective\n"
                   ++ "Use \x27gaussian\x27 if the objective returns noisy "
                   ++ "observations, otherwise specify the expected variance of "
                   ++ "the noise.",
               default := .str "gaussian" }),
            ("prev-trials", prevTrialsFlag) ]) ]),
    ("forest",
     [ ("description",
        .str ("Sequential optimization using decision trees.\n"
          ++ "Refer to https://scikit-optimize.github.io/#skopt.forest_minimize "
          ++ "for details on this algorithm and its flags.")),
       ("exec", .str "${python_exe} -um guild.plugins.skopt_forest_main"),
       ("flags",
        .flags
          [ ("random-starts", randomStartsFlag),
            ("kappa", kappaFlag),
            ("xi", xiFlag),
            ("prev-trials", prevTrialsFlag) ]) ]),
    ("gbrt",
     [ ("description",
        .str ("Sequential optimization using gradient boosted regression trees.\n"
          ++ "Refer to https://scikit-optimize.github.io/#skopt.gbrt_minimize "
          ++ "for details on this algorithm and its flags.")),
       ("exec", .str "${python_exe} -um guild.plugins.skopt_gbrt_main"),
       ("flags",
        .flags
          [ ("random-starts", randomStartsFlag),
            ("kappa", kappaFlag),
            ("xi", xiFlag),
            ("prev-trials", prevTrialsFlag) ]) ]) ]

/-- `_skopt_opdefs()` from skopt.py: the parsed YAML table with
behavioral defaults filled in. -/
def _skopt_opdefs : Opdefs := _apply_opdef_defaults skopt_opdefs_raw

/-!
## Operation resolver
-/

/-- The data of `SkoptModelProxy` relevant to resolution: the model
name and the operations table of its modeldef.  Modelled in part from
the spec: the proxy's `reference` and `modeldef` are built through
`guild.model` and `guild.model_proxy` (not under src/); the spec calls
the proxy "a fresh lightweight handle referencing the shared
OperationCatalog". -/
structure SkoptModelProxy where
  name : String
  operations : Opdefs
  deriving DecidableEq

/-- Constructing a `SkoptModelProxy` (its `__init__`): name "skopt",
operations from `_skopt_opdefs`. -/
def mkSkoptModelProxy : SkoptModelProxy :=
  { name := "skopt", operations := _skopt_opdefs }

/-- `SkoptPlugin.resolve_model_op(opspec)` from skopt.py. -/
def resolve_model_op (opspec : String) : Option (SkoptModelProxy × String) :=
  if opspec = "random" ∨ opspec = "skopt:random" then
    some (mkSkoptModelProxy, "random")
  else if opspec = "gp" ∨ opspec = "skopt:gp" ∨ opspec = "bayesian"
      ∨ opspec = "gaussian" then
    some (mkSkoptModelProxy, "gp")
  else if opspec = "forest" ∨ opspec = "skopt:forest" then
    some (mkSkoptModelProxy, "forest")
  else if opspec = "gbrt" ∨ opspec = "skopt:gbrt" then
    some (mkSkoptModelProxy, "gbrt")
  else
    none

/-!
## Helper lemmas
-/

/-- The descriptor produced for a complete bound pair, in one equation:
shared shape lemma for the bound-encoding theorems. -/
theorem encode_bounds_eq (flagdef : FlagDef) (val : Option FlagVal)
    (mn mx : FlagVal) (hc : flagdef.choices = [])
    (hmn : flagdef.min = some mn) (hmx : flagdef.max = some mx) :
    encode_flag_for_optimizer val flagdef =
      some (.searchSpace
        (funcNameOf flagdef.distribution
          ++ "[" ++ encode_flag_val mn ++ ":" ++ encode_flag_val mx
          ++ (match val with
              | some v => ":" ++ encode_flag_val v
              | none => "")
          ++ "]")) := by
  unfold encode_flag_for_optimizer _encode_function
  rw [hc, hmn, hmx]
  cases val <;>
    simp [joinColon, String.append_assoc, String.append_empty]

/-- Lookup in an appended association list hits the left part when the
key is bound there. -/
theorem alookup_append_left {α : Type} (k : String) (l1 l2 : List (String × α))
    (v : α) (h : alookup k l1 = some v) : alookup k (l1 ++ l2) = some v := by
  induction l1 with
  | nil => simp [alookup] at h
  | cons kv rest ih =>
    obtain ⟨k2, w⟩ := kv
    by_cases hk : k2 = k
    · simpa [alookup, hk] using h
    · rw [alookup, if_neg hk] at h
      simpa [alookup, hk] using ih h

/-- Lookup in an appended association list falls to the right part when
the key is unbound on the left. -/
theorem alookup_append_right {α : Type} (k : String) (l1 l2 : List (String × α))
    (h : alookup k l1 = none) : alookup k (l1 ++ l2) = alookup k l2 := by
  induction l1 with
  | nil => rfl
  | cons kv rest ih =>
    obtain ⟨k2, w⟩ := kv
    by_cases hk : k2 = k
    · simp [alookup, hk] at h
    · rw [alookup, if_neg hk] at h
      simpa [alookup, hk] using ih h

/-- Lookup commutes with mapping a function over the values of an
association list. -/
theorem alookup_map_val {α β : Type} (f : α → β) (k : String)
    (l : List (String × α)) :
    alookup k (l.map fun p => (p.1, f p.2)) = (alookup k l).map f := by
  induction l with
  | nil => rfl
  | cons kv rest ih =>
    obtain ⟨k2, w⟩ := kv
    by_cases hk : k2 = k <;> simp [alookup, hk, ih]

/-- Filtering an association list on keys unbound in `od` does not
change lookups of keys unbound in `od`. -/
theorem alookup_filter_unbound (k : String) (od defaults : Opdef)
    (h : alookup k od = none) :
    alookup k (defaults.filter fun kv => (alookup kv.1 od).isNone) =
      alookup k defaults := by
  induction defaults with
  | nil => rfl
  | cons kv rest ih =>
    obtain ⟨k2, w⟩ := kv
    by_cases hk : k2 = k
    · subst hk
      simp [List.filter, alookup, h, Option.isNone]
    · cases hp : (alookup k2 od).isNone <;>
        simp [List.filter, hp, alookup, hk, ih]

/-- Complete description of one lookup after `dictUpdateMissing`: a
declared binding survives unchanged, an undeclared key gets the
defaults table's binding. -/
theorem alookup_update_missing (od defaults : Opdef) (k : String) :
    alookup k (dictUpdateMissing od defaults) =
      match alookup k od with
      | some v => some v
      | none => alookup k defaults := by
  cases h : alookup k od with
  | some v => exact alookup_append_left k od _ v h
  | none =>
    rw [dictUpdateMissing, alookup_append_right k od _ h]
    exact alookup_filter_unbound k od defaults h

/-!
## Claim theorems
-/

/-- C1: For every flag definition with both `min` and `max` set and no
`choices`, `encode_flag_for_optimizer` returns a distribution
descriptor string: the flag's distribution name (or "uniform" when the
distribution is unset) followed by `[low:high]`, with `low` and `high`
the canonical encodings of `min` and `max`, and with a third
colon-delimited segment (the canonical encoding of the value) exactly
when a value was supplied. -/
theorem encode_bounds_descriptor (flagdef : FlagDef) (val : Option FlagVal)
    (mn mx : FlagVal) (hc : flagdef.choices = [])
    (hmn : flagdef.min = some mn) (hmx : flagdef.max = some mx) :
    encode_flag_for_optimizer val flagdef =
      some (.searchSpace
        (funcNameOf flagdef.distribution
          ++ "[" ++ encode_flag_val mn ++ ":" ++ encode_flag_val mx
          ++ (match val with
              | some v => ":" ++ encode_flag_val v
              | none => "")
          ++ "]")) :=
  encode_bounds_eq flagdef val mn mx hc hmn hmx

/-- Witness for C1 at the spec's end-to-end example: min = 0.0,
max = 1.0, distribution unset, value 0.3 encodes to
"uniform[0.0:1.0:0.3]". -/
theorem encode_bounds_descriptor_witness :
    encode_flag_for_optimizer (some (.float 3 1))
      { min := some (.float 0 1), max := some (.float 10 1) } =
      some (.searchSpace "uniform[0.0:1.0:0.3]") :=
  (encode_bounds_descriptor
      { min := some (.float 0 1), max := some (.float 10 1) }
      (some (.float 3 1)) (.float 0 1) (.float 10 1) rfl rfl rfl).trans
    (by decide)

/-- C2: For every flag definition with a non-empty choices list,
`encode_flag_for_optimizer` returns exactly the ordered raw values of
those choices (descriptions dropped), for every value argument and
regardless of whether `min`/`max` bounds are also present. -/
theorem encode_choices_precedence (flagdef : FlagDef) (val : Option FlagVal)
    (c : FlagChoice) (cs : List FlagChoice) (hc : flagdef.choices = c :: cs) :
    encode_flag_for_optimizer val flagdef =
      some (.choiceList ((c :: cs).map FlagChoice.value)) := by
  unfold encode_flag_for_optimizer
  simp [hc]

/-- Witness for C2 at the spec's end-to-end example: choices LCB, EI,
gp_hedge — with bounds also present and a value supplied — encode to
the ordered raw value list. -/
theorem encode_choices_precedence_witness :
    encode_flag_for_optimizer (some (.int 9))
      { choices := [⟨.str "LCB", none⟩, ⟨.str "EI", none⟩, ⟨.str "gp_hedge", none⟩],
        min := some (.int 0), max := some (.int 1) } =
      some (.choiceList [.str "LCB", .str "EI", .str "gp_hedge"]) :=
  (encode_choices_precedence
      { choices := [⟨.str "LCB", none⟩, ⟨.str "EI", none⟩, ⟨.str "gp_hedge", none⟩],
        min := some (.int 0), max := some (.int 1) }
      (some (.int 9)) ⟨.str "LCB", none⟩ [⟨.str "EI", none⟩, ⟨.str "gp_hedge", none⟩]
      rfl).trans
    (by decide)

/-- C3: For every flag definition with neither choices nor a complete
min/max bound pair, `encode_flag_for_optimizer` returns the supplied
value unchanged (pass-through). -/
theorem encode_passthrough (flagdef : FlagDef) (val : Option FlagVal)
    (hc : flagdef.choices = [])
    (hb : flagdef.min = none ∨ flagdef.max = none) :
    encode_flag_for_optimizer val flagdef = some (.passThrough val) := by
  unfold encode_flag_for_optimizer
  rcases hb with hb | hb <;> simp [hc, hb]

/-- Witness for C3 at the spec's end-to-end example: a flag with only
a default of 3, no bounds, no choices, passes any input value through
unchanged. -/
theorem encode_passthrough_witness :
    encode_flag_for_optimizer (some (.int 7)) { default := some (.int 3) } =
      some (.passThrough (some (.int 7))) :=
  encode_passthrough { default := some (.int 3) } (some (.int 7)) rfl (Or.inl rfl)

/-- C4 counterexample: a flag definition with no choices and only
`min` present (max absent).  The claim says `encode_flag_for_optimizer`
must fail with an assertion-style fault; the code instead returns a
result — the value passed through unchanged — because the bound-pair
branch requires both bounds and the remaining branch returns the value. -/
theorem encode_lone_bound_counterexample :
    encode_flag_for_optimizer (some (.int 5))
      { min := some (.int 0), default := some (.int 3) } =
      some (.passThrough (some (.int 5))) := by decide

/-- C4 amended: with no choices and exactly one of `min`/`max` present,
`encode_flag_for_optimizer` does not fault: it treats the bounds as
incomplete and returns the value unchanged.  The assertion guarding the
co-presence contract lives in the inner `_encode_function`, which does
fail (yields no result) when invoked directly on such a flag
definition. -/
theorem encode_lone_bound_behavior (flagdef : FlagDef) (val : Option FlagVal)
    (hc : flagdef.choices = [])
    (hb : flagdef.min.isSome ≠ flagdef.max.isSome) :
    encode_flag_for_optimizer val flagdef = some (.passThrough val) ∧
      _encode_function flagdef val = none := by
  cases hmn : flagdef.min with
  | none =>
    cases hmx : flagdef.max with
    | none => rw [hmn, hmx] at hb; simp at hb
    | some mx =>
      constructor
      · unfold encode_flag_for_optimizer
        simp [hc, hmn]
      · unfold _encode_function
        rw [hmn]
  | some mn =>
    cases hmx : flagdef.max with
    | none =>
      constructor
      · unfold encode_flag_for_optimizer
        simp [hc, hmx]
      · unfold _encode_function
        rw [hmn, hmx]
    | some mx => rw [hmn, hmx] at hb; simp at hb

/-- Witness for the amended C4: only `min` present — the encoder
returns the value unchanged while the inner function's assertion
fails. -/
theorem encode_lone_bound_behavior_witness :
    encode_flag_for_optimizer (some (.int 11))
      { min := some (.int 0), default := some (.int 3) } =
      some (.passThrough (some (.int 11))) ∧
    _encode_function { min := some (.int 0), default := some (.int 3) }
      (some (.int 11)) = none :=
  encode_lone_bound_behavior { min := some (.int 0), default := some (.int 3) }
    (some (.int 11)) rfl (by decide)

/-- C5: the encoder does not validate that min ≤ max: with both bounds
present, no choices, and max numerically smaller than min (here both
decimal floats with the same scale and a smaller max mantissa), the
descriptor is still produced with min's encoding in the low position
and max's encoding in the high position, with no error. -/
theorem encode_unordered_bounds (flagdef : FlagDef) (val : Option FlagVal)
    (m1 m2 : Int) (d : Nat) (hc : flagdef.choices = [])
    (hmn : flagdef.min = some (.float m1 d))
    (hmx : flagdef.max = some (.float m2 d))
    (_hlt : m2 < m1) :
    encode_flag_for_optimizer val flagdef =
      some (.searchSpace
        (funcNameOf flagdef.distribution
          ++ "[" ++ encode_flag_val (.float m1 d) ++ ":"
          ++ encode_flag_val (.float m2 d)
          ++ (match val with
              | some v => ":" ++ encode_flag_val v
              | none => "")
          ++ "]")) :=
  encode_bounds_eq flagdef val (.float m1 d) (.float m2 d) hc hmn hmx

/-- Witness for C5: min = 1.0, max = 0.0 encode, without error, to
"uniform[1.0:0.0]". -/
theorem encode_unordered_bounds_witness :
    encode_flag_for_optimizer none
      { min := some (.float 10 1), max := some (.float 0 1) } =
      some (.searchSpace "uniform[1.0:0.0]") :=
  have h0 : (0 : Int) < 10 := by decide
  (encode_unordered_bounds
      { min := some (.float 10 1), max := some (.float 0 1) }
      none 10 0 1 rfl rfl rfl h0).trans
    (by decide)

/-- C10: None is the sole sentinel for an absent value, and
distribution falsiness follows Python truthiness: for a flag with both
bounds, no choices, and an empty-string (falsy but present)
distribution, the function name still falls back to "uniform", and the
third (initial) segment is appended exactly when the value argument is
non-None — falsy non-None values (0, 0.0, false, "") are still encoded
and included. -/
theorem encode_none_sentinel (flagdef : FlagDef) (val : Option FlagVal)
    (mn mx : FlagVal) (hc : flagdef.choices = [])
    (hmn : flagdef.min = some mn) (hmx : flagdef.max = some mx)
    (hd : flagdef.distribution = some "") :
    encode_flag_for_optimizer val flagdef =
      some (.searchSpace
        ("uniform[" ++ encode_flag_val mn ++ ":" ++ encode_flag_val mx
          ++ (match val with
              | some v => ":" ++ encode_flag_val v
              | none => "")
          ++ "]")) := by
  have h := encode_bounds_eq flagdef val mn mx hc hmn hmx
  rw [hd] at h
  simpa [funcNameOf, String.append_assoc] using h

/-- Witness for C10: empty-string distribution becomes "uniform", and
the falsy non-None value `false` is still encoded as the third
segment. -/
theorem encode_none_sentinel_witness :
    encode_flag_for_optimizer (some (.bool false))
      { min := some (.int 0), max := some (.int 1), distribution := some "" } =
      some (.searchSpace "uniform[0:1:no]") :=
  (encode_none_sentinel
      { min := some (.int 0), max := some (.int 1), distribution := some "" }
      (some (.bool false)) (.int 0) (.int 1) rfl rfl rfl rfl).trans
    (by decide)

/-- C6: the aliases "gp", "bayesian", "gaussian" and "skopt:gp" all
resolve to a (model-proxy, operation-name) pair with operation-name
"gp", and every string outside the recognized alias set resolves to
the no-match result (`none`) rather than raising a fault. -/
theorem resolve_model_op_aliases :
    (resolve_model_op "gp").map Prod.snd = some "gp" ∧
    (resolve_model_op "bayesian").map Prod.snd = some "gp" ∧
    (resolve_model_op "gaussian").map Prod.snd = some "gp" ∧
    (resolve_model_op "skopt:gp").map Prod.snd = some "gp" ∧
    ∀ s : String,
      s ∉ (["random", "skopt:random", "gp", "skopt:gp", "bayesian", "gaussian",
            "forest", "skopt:forest", "gbrt", "skopt:gbrt"] : List String) →
      resolve_model_op s = none := by
  refine ⟨rfl, rfl, rfl, rfl, ?_⟩
  intro s hs
  simp only [List.mem_cons, List.not_mem_nil, or_false, not_or] at hs
  obtain ⟨h1, h2, h3, h4, h5, h6, h7, h8, h9, h10⟩ := hs
  unfold resolve_model_op
  rw [if_neg (by simp [h1, h2]), if_neg (by simp [h3, h4, h5, h6]),
    if_neg (by simp [h7, h8]), if_neg (by simp [h9, h10])]

/-- Witness for C6: "nonexistent" is outside the alias set and
resolves to the no-match result. -/
theorem resolve_model_op_aliases_witness :
    resolve_model_op "nonexistent" = none :=
  resolve_model_op_aliases.2.2.2.2 "nonexistent" (by decide)

/-- C7: default filling never overwrites a declared field: for every
catalog, operation and field bound in the operation's declaration,
the catalog built by `_apply_opdef_defaults` still binds that field to
the declared value. -/
theorem apply_defaults_keeps_declared (opdefs : Opdefs) (n key : String)
    (od : Opdef) (v : OpField)
    (hn : alookup n opdefs = some od) (hk : alookup key od = some v) :
    ∃ od2, alookup n (_apply_opdef_defaults opdefs) = some od2 ∧
      alookup key od2 = some v := by
  refine ⟨dictUpdateMissing od opdefDefaults, ?_, ?_⟩
  · rw [_apply_opdef_defaults,
      alookup_map_val (fun x => dictUpdateMissing x opdefDefaults) n opdefs,
      hn]
    rfl
  · rw [alookup_update_missing, hk]

/-- Witness for C7: the random operation declares
`delete-on-success: yes`; the built catalog retains `true`, not the
global default `false`. -/
theorem apply_defaults_keeps_declared_witness :
    ∃ od2, alookup "random" (_apply_opdef_defaults skopt_opdefs_raw) = some od2 ∧
      alookup "delete-on-success" od2 = some (.bool true) :=
  apply_defaults_keeps_declared skopt_opdefs_raw "random" "delete-on-success"
    ((alookup "random" skopt_opdefs_raw).getD []) (.bool true)
    (by decide) (by decide)

set_option maxRecDepth 100000 in
/-- C8: after catalog construction every operation definition has all
five behavioral-default fields present (flag-encoder reference,
default-max-trials = 20, delete-on-success = false, can-stage-trials =
false, env = \x7bNO_OP_INTERRUPTED_MSG: "1"\x7d), each taken from the
global default table wherever the declaration omitted it. -/
theorem catalog_defaults_populated :
    ∀ p ∈ _skopt_opdefs, ∀ kd ∈ opdefDefaults,
      (alookup kd.1 p.2).isSome ∧
      (alookup kd.1 ((alookup p.1 skopt_opdefs_raw).getD []) = none →
        alookup kd.1 p.2 = some kd.2) := by decide

set_option maxRecDepth 100000 in
/-- Witness for C8: the gp operation declares no `default-max-trials`;
the built catalog binds it to the global default 20. -/
theorem catalog_defaults_populated_witness :
    alookup "default-max-trials" ((alookup "gp" _skopt_opdefs).getD []) =
      some (.int 20) :=
  (catalog_defaults_populated ("gp", (alookup "gp" _skopt_opdefs).getD [])
      (by decide) ("default-max-trials", .int 20) (by decide)).2 (by decide)

set_option maxRecDepth 100000 in
/-- C9: catalog construction is idempotent: the build step is a pure
function of the static declaration, and applying the default-filling
pass to an already-built catalog changes nothing, so two independent
builds yield field-for-field equal catalogs. -/
theorem skopt_opdefs_idempotent :
    _apply_opdef_defaults _skopt_opdefs = _skopt_opdefs := by decide

end Skopt

